import Mathlib

/-!
Verification of the FluentModel fluent persistence layer
(query_builder.go, update_builder.go) against its specification.

The Go code is shallowly embedded: runtime values (`any`) become the
inductive `Val`; reflection kinds become `GoKind`; the fluent builder
state `DBModel` becomes a Lean structure; the external fluentsql
query/update builders become query ASTs accumulated by pure builder
functions; database execution and the cryptographic randomness source
are passed in as explicit oracle parameters.
-/

namespace FluentModel

/-- A Go `any` runtime value, as far as the claims need to distinguish:
`nil`, integers, strings and slices. -/
inductive Val where
  | vNil : Val
  | vInt : Int → Val
  | vStr : String → Val
  | vList : List Val → Val

/-- Go `reflect.Value.IsZero` on the embedded values: `nil` interface,
zero integer and empty string are zero; a slice value is modelled as
non-zero. -/
def Val.isZero : Val → Bool
  | .vNil => true
  | .vInt n => n == 0
  | .vStr s => s == ""
  | .vList _ => false

/-- Go `reflect.TypeOf(v).Kind() == reflect.Slice` on an embedded value. -/
def Val.isSliceKind : Val → Bool
  | .vList _ => true
  | _ => false

/-- The reflection kinds of the model arguments the code inspects:
struct, pointer-to-struct, pointer-to-slice, map, and anything else. -/
inductive GoKind where
  | kStruct
  | kPtrStruct
  | kPtrSlice
  | kMap
  | kOther
deriving DecidableEq, Repr

/-- `typ.Kind() == reflect.Struct || (typ.Kind() == reflect.Ptr &&
typ.Elem().Kind() == reflect.Struct)` — the shape check of `GetOne`. -/
def GoKind.isStructLike : GoKind → Bool
  | .kStruct => true
  | .kPtrStruct => true
  | _ => false

/-- fluentsql comparison operators (external enumeration, modelled at
the interface boundary: `Eq`, `In`, and a stand-in for the rest). -/
inductive Opt where
  | Eq
  | In
  | Neq
  | Gt
  | Lt
deriving DecidableEq, Repr

/-- fluentsql conjunction kind (`And`/`Or`); `And` is the zero value. -/
inductive AndOr where
  | and
  | or
deriving DecidableEq, Repr

/-- fluentsql ordering direction. `Asc` is the zero value of the
external enumeration. -/
inductive OrderByDir where
  | Asc
  | Desc
deriving DecidableEq, Repr

/-- fluentsql `Condition`: `Field` (a column name or nil), `Opt`,
`Value`, `AndOr`, and `Group`, an ordered sequence of sub-conditions
(non-empty only for a parenthesized sub-expression). -/
inductive Cond where
  | mk : Option String → Opt → Val → AndOr → List Cond → Cond

/-- `Condition.Field`. -/
def Cond.field : Cond → Option String
  | .mk f _ _ _ _ => f

/-- `Condition.Opt`. -/
def Cond.opt : Cond → Opt
  | .mk _ o _ _ _ => o

/-- `Condition.Value`. -/
def Cond.value : Cond → Val
  | .mk _ _ v _ _ => v

/-- `Condition.AndOr`. -/
def Cond.andor : Cond → AndOr
  | .mk _ _ _ a _ => a

/-- `Condition.Group`. -/
def Cond.group : Cond → List Cond
  | .mk _ _ _ _ g => g

/-- The zero value of `fluentsql.Condition` (all fields zero), the
state of `db.wherePrimaryCondition` after a `reset`. -/
def zeroCond : Cond := .mk none .Eq .vNil .and []

/-- A table column as produced by the record metadata extractor:
its name, whether the source field holds a non-zero value, and the
flag deciding participation in insert/update.
`canAddOrUpdate` is modelled from the spec: `CanColumnBeAddOrUpdate`
is a pure function of the column's declaration flags (read-only /
auto-generated), independent of the current value. -/
structure Column where
  name : String
  hasValue : Bool
  canAddOrUpdate : Bool
deriving DecidableEq, Repr

/-- Modelled from the spec: the `Table` metadata produced by the record
metadata extractor (`ModelData` / `processModel`, not part of the
reviewed sources): table name, ordered columns, primary-key columns,
a column-name → current-value mapping, and `HasData`. -/
structure Table where
  name : String
  columns : List Column
  primaries : List Column
  values : List (String × Val)
  hasData : Bool

/-- `table.Values[name]` — Go map indexing, yielding the zero value
(`nil` interface) for a missing key. -/
def Table.value (t : Table) (name : String) : Val :=
  match t.values.lookup name with
  | some v => v
  | none => .vNil

/-- Modelled from the spec: `table.CanColumnBeAddOrUpdate(column)` is a
pure function of the column's declaration flags. -/
def Table.CanColumnBeAddOrUpdate (_t : Table) (column : Column) : Bool :=
  column.canAddOrUpdate

/-- "Get a primary key": the first declared primary column's name, or
nothing — the computation `GetOne`, `Find` and `updateByStruct` all
perform on the extracted metadata. -/
def Table.primaryKey (t : Table) : Option String :=
  match t.primaries with
  | [] => none
  | p :: _ => some p.name

/-- A model argument as the reflection-based code sees it: its kind and
the `Table` metadata its (element) type introspects to. -/
structure GoModel where
  kind : GoKind
  table : Table

/-- A configured JOIN item (kind, table, condition), passed through to
`queryBuilder.Join`. -/
structure JoinItem where
  join : String
  table : String
  condition : Cond

/-- One WHERE-clause entry of the external query builder, recording
which builder call produced it: `Where` (AND-joined leaf), `WhereOr`,
`WhereGroup` (parenthesized group) or `WhereCondition` (a whole
`Condition` appended as-is). -/
inductive WhereItem where
  | whereAnd : Option String → Opt → Val → WhereItem
  | whereOr : Option String → Opt → Val → WhereItem
  | whereGroup : List Cond → WhereItem
  | whereCond : Cond → WhereItem

/-- The abstract query assembled through the external fluentsql query
builder, modelled as the record of the clauses the builder calls set. -/
structure Query where
  selectCols : List String
  fromTable : String
  joins : List JoinItem
  whereItems : List WhereItem
  groupBy : List String
  havingConds : List (Option String × Opt × Val)
  limitClause : Option (Int × Int)
  fetchClause : Option (Int × Int)
  orderBy : List (String × OrderByDir)

/-- `fluentsql.QueryInstance()` — a fresh, empty query. -/
def QueryInstance : Query :=
  ⟨[], "", [], [], [], [], none, none, []⟩

/-- `queryBuilder.Select(columns...)`. -/
def Query.select (q : Query) (cols : List String) : Query :=
  { q with selectCols := cols }

/-- `queryBuilder.From(table)`. -/
def Query.from (q : Query) (t : String) : Query :=
  { q with fromTable := t }

/-- `queryBuilder.Limit(limit, offset)`. -/
def Query.limit (q : Query) (l o : Int) : Query :=
  { q with limitClause := some (l, o) }

/-- `queryBuilder.Fetch(offset, fetch)`. -/
def Query.fetch (q : Query) (o f : Int) : Query :=
  { q with fetchClause := some (o, f) }

/-- `queryBuilder.Where(field, opt, value)` — appends an AND leaf. -/
def Query.whereAnd (q : Query) (f : Option String) (o : Opt) (v : Val) : Query :=
  { q with whereItems := q.whereItems ++ [.whereAnd f o v] }

/-- `queryBuilder.WhereOr(field, opt, value)` — appends an OR leaf. -/
def Query.whereOr (q : Query) (f : Option String) (o : Opt) (v : Val) : Query :=
  { q with whereItems := q.whereItems ++ [.whereOr f o v] }

/-- `queryBuilder.WhereGroup(fn)` where `fn` appends the group's
conditions via `WhereCondition(condition.Group...)`. -/
def Query.whereGroup (q : Query) (g : List Cond) : Query :=
  { q with whereItems := q.whereItems ++ [.whereGroup g] }

/-- `queryBuilder.WhereCondition(condition)`. -/
def Query.whereCondition (q : Query) (c : Cond) : Query :=
  { q with whereItems := q.whereItems ++ [.whereCond c] }

/-- `queryBuilder.Join(join, table, condition)`. -/
def Query.join (q : Query) (j : JoinItem) : Query :=
  { q with joins := q.joins ++ [j] }

/-- `queryBuilder.GroupBy(items...)`. -/
def Query.groupByItems (q : Query) (items : List String) : Query :=
  { q with groupBy := items }

/-- `queryBuilder.Having(field, opt, value)`. -/
def Query.having (q : Query) (f : Option String) (o : Opt) (v : Val) : Query :=
  { q with havingConds := q.havingConds ++ [(f, o, v)] }

/-- `queryBuilder.OrderBy(field, dir)`. -/
def Query.orderByItem (q : Query) (f : String) (d : OrderByDir) : Query :=
  { q with orderBy := q.orderBy ++ [(f, d)] }

/-- Go `v != nil` on an embedded `any` value. -/
def Val.isNil : Val → Bool
  | .vNil => true
  | _ => false

/-- The fluent builder state `DBModel`: the per-operation accumulator of
select columns, omitted columns, where conditions, joins, group-by,
having, limit/offset, fetch, order-by, the primary-key fast-path
condition, the raw-SQL override, the bound model reference, and the
optional transaction handle. -/
structure DBModel where
  selectStatement : List String
  omitsSelectStatement : List String
  whereStatement : List Cond
  joinStatement : List JoinItem
  groupByStatement : List String
  havingStatement : List Cond
  limitStatement : Int × Int
  fetchStatement : Int × Int
  orderByStatement : List (String × OrderByDir)
  wherePrimaryCondition : Cond
  rawSqlStr : String
  rawArgs : List Val
  model : Option Table
  tx : Bool

/-- The zero (freshly-reset) builder state. -/
def emptyDB : DBModel :=
  ⟨[], [], [], [], [], [], (0, 0), (0, 0), [], zeroCond, "", [], none, false⟩

/-- Modelled from the spec: `db.reset()` (not part of the reviewed
sources) clears every field of the builder state to its zero value. -/
def DBModel.reset (_db : DBModel) : DBModel := emptyDB

/-- The strategy selector `type GetOne int` with its three constants. -/
inductive GetOne where
  | GetFirst
  | GetLast
  | TakeOne
deriving DecidableEq, Repr

/-- The outcome of a single-row operation: raw-SQL execution, the
shape error, a Go runtime panic, or execution of an assembled query
(with the driver error passed through). -/
inductive GetOneResult where
  | rawExec : String → List Val → Option String → GetOneResult
  | shapeError : String → GetOneResult
  | panicked : String → GetOneResult
  | executed : Query → Option String → GetOneResult

/-- The body of the where-condition loop shared by `GetOne`, `Find`
and `updateByStruct`: a condition with a non-empty `Group` goes
through `WhereGroup`, an And leaf through `Where`, an Or leaf
through `WhereOr`. -/
def applyCond (q : Query) (condition : Cond) : Query :=
  if condition.group.length > 0 then
    q.whereGroup condition.group
  else if condition.andor = .and then
    q.whereAnd condition.field condition.opt condition.value
  else if condition.andor = .or then
    q.whereOr condition.field condition.opt condition.value
  else q

/-- The body of the in-struct filtering loop: skip columns without a
value, append an equality condition for populated ones. -/
def whereHasValueCol (t : Table) (acc : Query) (column : Column) : Query :=
  if ¬ column.hasValue then acc
  else acc.whereAnd (some column.name) .Eq (t.value column.name)

/-- Modelled from the spec: `db.whereFromModel(queryBuilder)` (not part
of the reviewed sources) appends an equality condition per populated
column of the bound model set by `Model(...)`, so a bound record acts
as an implicit filter. -/
def DBModel.whereFromModel (db : DBModel) (q : Query) : Query :=
  match db.model with
  | none => q
  | some t => t.columns.foldl (whereHasValueCol t) q

/-- The random column index drawn in the `TakeOne` branch:
`rand.Int(rand.Reader, big.NewInt(int64(len(columns)-1)))` is uniform
over `[0, len-1)`, so the oracle draw `r1` is reduced modulo `len-1`. -/
def takeIndex (numCols r1 : Nat) : Nat := r1 % (numCols - 1)

/-- The query-assembly block of `GetOne`, up to (not including) the
ORDER BY clause: select list, source table, `Limit(1, 0)`, the
primary-key fast-path condition, the configured where-conditions, the
in-struct filters, and the bound-model filters, in that order. -/
def DBModel.getOneBuild (db : DBModel) (table : Table) : Query :=
  -- Get a primary key
  let primaryKey : Option String := table.primaryKey
  -- Only some selected columns or all
  let selectColumns : List String :=
    if db.selectStatement.length > 0 then db.selectStatement else ["*"]
  -- Create query builder
  let queryBuilder := ((QueryInstance.select selectColumns).from table.name).limit 1 0
  -- Build WHERE condition with specific primary value
  let queryBuilder :=
    if ¬ db.wherePrimaryCondition.value.isNil ∧ primaryKey.isSome then
      queryBuilder.whereAnd primaryKey db.wherePrimaryCondition.opt
        db.wherePrimaryCondition.value
    else queryBuilder
  -- Build WHERE condition from a condition list
  let queryBuilder := db.whereStatement.foldl applyCond queryBuilder
  -- Build WHERE condition from model's data
  let queryBuilder :=
    if table.hasData then table.columns.foldl (whereHasValueCol table) queryBuilder
    else queryBuilder
  -- Build WHERE condition from a specific model
  db.whereFromModel queryBuilder

/-- `GetOne` with a specific strategy `GetLast | GetFirst | TakeOne`.
`r1`, `r2` are the two `crypto/rand` draws (a uniform draw below a
positive bound `m` is modelled as `r % m`; `rand.Int` panics when the
bound is not positive) and `e` is the error the database execution
(`db.get`, modelled from the spec as an external oracle) returns. -/
def DBModel.GetOne (db : DBModel) (model : GoModel) (getType : GetOne)
    (r1 r2 : Nat) (e : Option String) : DBModel × GetOneResult :=
  -- Query raw SQL
  if db.rawSqlStr ≠ "" then
    (db.reset, .rawExec db.rawSqlStr db.rawArgs e)
  else if ¬ model.kind.isStructLike then
    (db, .shapeError "invalid data :: model not Struct type")
  else
    -- Create a table object from a model (`ModelData`; its error is
    -- assigned but never checked by the code)
    let table := model.table
    -- Get a primary key
    let primaryKey : Option String := table.primaryKey
    -- Assemble the query up to the ORDER BY clause
    let queryBuilder := db.getOneBuild table
    -- `table.Columns[0]` panics on an empty column list
    let orderByField0 : Option String :=
      match primaryKey, table.columns with
      | some p, _ => some p
      | none, c :: _ => some c.name
      | none, [] => none
    match orderByField0 with
    | none => (db, .panicked "runtime error: index out of range")
    | some orderByField =>
      -- Get order (`orderByDir`'s zero value is `Asc`)
      let fieldDir : Option (String × OrderByDir) :=
        if getType = .GetLast ∧ orderByField ≠ "" then
          some (orderByField, .Desc)
        else if getType = .GetFirst ∧ orderByField ≠ "" then
          some (orderByField, .Asc)
        else if getType = .TakeOne then
          -- Random order field and order dir
          if table.columns.length ≤ 1 then none
          else
            let f := (table.columns.getD (takeIndex table.columns.length r1)
              ⟨"", false, false⟩).name
            let d := if (r2 % 10) % 2 = 1 then OrderByDir.Asc else OrderByDir.Desc
            some (f, d)
        else some (orderByField, .Asc)
      match fieldDir with
      | none => (db, .panicked "crypto/rand: argument to Int is <= 0")
      | some fd =>
        -- Build Order By clause, then data persistence and reset
        let queryBuilder := queryBuilder.orderByItem fd.1 fd.2
        (db.reset, .executed queryBuilder e)

/-- `First` — records the first positional argument as the primary-key
fast-path condition, then delegates to `GetOne GetFirst`. -/
def DBModel.First (db : DBModel) (model : GoModel) (args : List Val)
    (r1 r2 : Nat) (e : Option String) : DBModel × GetOneResult :=
  let db :=
    if args.length > 0 then
      { db with wherePrimaryCondition := .mk none .Eq (args.getD 0 .vNil) .and [] }
    else db
  db.GetOne model .GetFirst r1 r2 e

/-- `Take` — one record, no specified order. -/
def DBModel.Take (db : DBModel) (model : GoModel) (r1 r2 : Nat)
    (e : Option String) : DBModel × GetOneResult :=
  db.GetOne model .TakeOne r1 r2 e

/-- `Last` — last record, ordered by primary key descending. -/
def DBModel.Last (db : DBModel) (model : GoModel) (r1 r2 : Nat)
    (e : Option String) : DBModel × GetOneResult :=
  db.GetOne model .GetLast r1 r2 e

/-- Modelled from the spec: `db.count(queryBuilder, &total)` (not part
of the reviewed sources) runs a companion count query built from the
assembled query — the same filters, ignoring limit/offset/fetch/order
— and reports the total matching row count. -/
def countQueryOf (q : Query) : Query :=
  { q with selectCols := ["COUNT(*)"], limitClause := none, fetchClause := none,
           orderBy := [] }

/-- The outcome of `Find`: raw-SQL execution, the shape error, the
invalid-params error, a row-query failure, a count-query failure, or
success; execution outcomes record the assembled query (and count
query) involved. -/
inductive FindResult where
  | rawExec : String → List Val → Option String → FindResult
  | shapeError : String → FindResult
  | paramsError : String → FindResult
  | queryFailed : Query → String → FindResult
  | countFailed : Query → Query → String → FindResult
  | ok : Query → Query → FindResult

/-- The query-assembly block of `Find`: select list, source table,
joins, the primary-key fast-path condition, configured
where-conditions, bound-model filters, group-by, having, limit,
fetch, and order-by, in that order. -/
def DBModel.findBuild (db : DBModel) (table : Table) : Query :=
  -- Get a primary key
  let primaryKey : Option String := table.primaryKey
  -- Only some selected columns or all
  let selectColumns : List String :=
    if db.selectStatement.length > 0 then db.selectStatement else ["*"]
  -- Create query builder
  let queryBuilder := (QueryInstance.select selectColumns).from table.name
  -- Build JOIN clause
  let queryBuilder := db.joinStatement.foldl Query.join queryBuilder
  -- Build WHERE condition with specific primary value
  let queryBuilder :=
    if ¬ db.wherePrimaryCondition.value.isNil ∧ primaryKey.isSome then
      queryBuilder.whereCondition db.wherePrimaryCondition
    else queryBuilder
  -- Build WHERE condition from a condition list
  let queryBuilder := db.whereStatement.foldl applyCond queryBuilder
  -- Build WHERE condition from a specific model
  let queryBuilder := db.whereFromModel queryBuilder
  -- Build GROUP BY clause
  let queryBuilder :=
    if db.groupByStatement.length > 0 then queryBuilder.groupByItems db.groupByStatement
    else queryBuilder
  -- Build HAVING clause
  let queryBuilder := db.havingStatement.foldl
    (fun acc c => acc.having c.field c.opt c.value) queryBuilder
  -- Build LIMIT clause (`limitStatement` is `(Limit, Offset)`)
  let queryBuilder :=
    if db.limitStatement.1 > 0 then queryBuilder.limit db.limitStatement.1 db.limitStatement.2
    else queryBuilder
  -- Build FETCH clause (`fetchStatement` is `(Offset, Fetch)`)
  let queryBuilder :=
    if db.fetchStatement.2 > 0 then queryBuilder.fetch db.fetchStatement.1 db.fetchStatement.2
    else queryBuilder
  -- Build ORDER BY clause
  db.orderByStatement.foldl (fun acc it => acc.orderByItem it.1 it.2) queryBuilder

/-- `Find` — search rows. `e1` is the row query's driver error, `e2`
the count query's; `dbEval` is the database itself, abstracted as a
map from a (count) query to the number it reports. The `Int` of the
result is the named return `total` (zero unless the count ran). -/
def DBModel.Find (db : DBModel) (model : GoModel) (params : List Val)
    (e1 : Option String) (dbEval : Query → Int) (e2 : Option String) :
    DBModel × Int × FindResult :=
  -- Query raw SQL
  if db.rawSqlStr ≠ "" then
    (db.reset, 0, .rawExec db.rawSqlStr db.rawArgs e1)
  else if ¬ model.kind = .kPtrSlice then
    (db, 0, .shapeError "invalid data :: model not *Slice type")
  else
    -- `processModel` on the slice's element type
    let table := model.table
    -- Get a primary key
    let primaryKey : Option String := table.primaryKey
    -- Primary-key id-list fast path
    let step : Except FindResult DBModel :=
      if params.length > 0 ∧ primaryKey.isSome then
        let sliceIds := params.getD 0 .vNil
        if ¬ sliceIds.isSliceKind then
          .error (.paramsError "invalid data :: params not Slice type")
        else
          .ok { db with wherePrimaryCondition := .mk primaryKey .In sliceIds .and [] }
      else .ok db
    match step with
    | .error r => (db, 0, r)
    | .ok db =>
      -- Assemble the multi-row query
      let queryBuilder := db.findBuild table
      -- Data persistence: row query, then companion count query
      match e1 with
      | some m => (db, 0, .queryFailed queryBuilder m)
      | none =>
        match e2 with
        | some m => (db, 0, .countFailed queryBuilder (countQueryOf queryBuilder) m)
        | none =>
          (db.reset, dbEval (countQueryOf queryBuilder),
            .ok queryBuilder (countQueryOf queryBuilder))

/-- The update statement accumulated through the external fluentsql
update builder: target table, WHERE items, SET pairs. -/
structure UpdQuery where
  table : String
  whereItems : List WhereItem
  sets : List (String × Val)

/-- `fluentsql.UpdateInstance()` — a fresh, empty update statement. -/
def UpdateInstance : UpdQuery := ⟨"", [], []⟩

/-- `updateBuilder.Update(table)`. -/
def UpdQuery.update (u : UpdQuery) (t : String) : UpdQuery :=
  { u with table := t }

/-- `updateBuilder.Where(field, opt, value)`. -/
def UpdQuery.whereAnd (u : UpdQuery) (f : Option String) (o : Opt) (v : Val) : UpdQuery :=
  { u with whereItems := u.whereItems ++ [.whereAnd f o v] }

/-- `updateBuilder.WhereOr(field, opt, value)`. -/
def UpdQuery.whereOr (u : UpdQuery) (f : Option String) (o : Opt) (v : Val) : UpdQuery :=
  { u with whereItems := u.whereItems ++ [.whereOr f o v] }

/-- `updateBuilder.WhereGroup(fn)` appending the group's conditions. -/
def UpdQuery.whereGroup (u : UpdQuery) (g : List Cond) : UpdQuery :=
  { u with whereItems := u.whereItems ++ [.whereGroup g] }

/-- `updateBuilder.Set(column, value)`. -/
def UpdQuery.set (u : UpdQuery) (c : String) (v : Val) : UpdQuery :=
  { u with sets := u.sets ++ [(c, v)] }

/-- The body of `updateByStruct`'s column loop over `(columns, values,
wherePrimaryCondition)`: skip columns that may not be added/updated
(`CanColumnBeAddOrUpdate`) or that are listed among the omitted
columns; otherwise pair the column with its current value and, for the
primary-key column, record the primary-key fast-path condition. -/
def updColumnStep (db : DBModel) (t : Table) (primaryKey : Option String)
    (acc : List String × List Val × Cond) (column : Column) :
    List String × List Val × Cond :=
  if ¬ t.CanColumnBeAddOrUpdate column then acc
  else if db.omitsSelectStatement.length > 0 ∧ column.name ∈ db.omitsSelectStatement then acc
  else
    let value := t.value column.name
    let wpc :=
      if some column.name = primaryKey then Cond.mk primaryKey .Eq value .and []
      else acc.2.2
    (acc.1 ++ [column.name], acc.2.1 ++ [value], wpc)

/-- The primary-key fast-path condition as it stands when
`updateByStruct` reaches its WHERE-construction phase: the builder's
condition threaded through the column loop. -/
def structPrimaryCond (db : DBModel) (t : Table) : Cond :=
  (t.columns.foldl (updColumnStep db t t.primaryKey) ([], [], db.wherePrimaryCondition)).2.2

/-- `updateByStruct` — update data by a (reflected) struct. Returns
the mutated builder state, the returned error, and the update
statement executed (`none` when the safety guard aborts). `e` is the
driver error of `db.update` (modelled from the spec as an oracle). -/
def DBModel.updateByStruct (db : DBModel) (table : Table) (e : Option String) :
    DBModel × Option String × Option UpdQuery :=
  -- Create a table object from a model (`ModelData`; error unchecked)
  -- Get a primary key
  let primaryKey : Option String := table.primaryKey
  -- Get columns and values accordingly (`columns`/`values` are computed
  -- but never used further; the loop also records the primary-key
  -- condition on the builder state)
  let acc := table.columns.foldl (updColumnStep db table primaryKey)
    ([], [], db.wherePrimaryCondition)
  let db := { db with wherePrimaryCondition := acc.2.2 }
  -- Create update instance
  let updateBuilder := UpdateInstance.update table.name
  -- Build WHERE condition with specific primary value
  let st : UpdQuery × Bool :=
    if ¬ db.wherePrimaryCondition.value.isNil ∧ primaryKey.isSome then
      (updateBuilder.whereAnd primaryKey db.wherePrimaryCondition.opt
        db.wherePrimaryCondition.value, true)
    else (updateBuilder, false)
  -- Build WHERE condition from a condition list
  let st := db.whereStatement.foldl
    (fun p condition =>
      if condition.group.length > 0 then (p.1.whereGroup condition.group, true)
      else if condition.andor = .and then
        (p.1.whereAnd condition.field condition.opt condition.value, true)
      else if condition.andor = .or then
        (p.1.whereOr condition.field condition.opt condition.value, true)
      else p) st
  if st.2 = false then
    (db, some "missing WHERE condition for updating operator", none)
  else
    -- Build Updating fields from model's data
    let updateBuilder := table.columns.foldl
      (fun ub column =>
        if ¬ column.hasValue then ub
        else ub.set column.name (table.value column.name)) st.1
    (db, e, some updateBuilder)

/-- Modelled from the spec: `SetValue(db.model, name, val)` (not part
of the reviewed sources) assigns `val` onto the named field of the
bound model: the column's value is replaced, the column is populated
iff the new value is non-zero, and the record then carries data. -/
def SetValue (t : Table) (key : String) (v : Val) : Table :=
  if (t.columns.map Column.name).contains key then
    { t with
      columns := t.columns.map
        (fun c => if c.name = key then { c with hasValue := ¬ v.isZero } else c),
      values := t.values.map (fun p => if p.1 = key then (p.1, v) else p),
      hasData := t.hasData ∨ ¬ v.isZero }
  else t

/-- The map-assignment loop of `updateByMap`: each valid, non-zero map
entry is assigned onto the bound model via `SetValue`. -/
def applyMapToModel (value : List (String × Val)) (t : Table) : Table :=
  value.foldl (fun acc kv => if ¬ kv.2.isZero then SetValue acc kv.1 kv.2 else acc) t

/-- `updateByMap` — partial update: requires a bound model, assigns the
non-zero map entries onto it, then delegates to `updateByStruct`. -/
def DBModel.updateByMap (db : DBModel) (value : List (String × Val)) (e : Option String) :
    DBModel × Option String × Option UpdQuery :=
  match db.model with
  | none => (db, some "missing model for map value", none)
  | some t =>
    -- Process for each map key (`SetValue`'s error is overwritten)
    let t := applyMapToModel value t
    let db := { db with model := some t }
    db.updateByStruct t e

/-- The `Update` argument as reflection sees it: a map (entries in
iteration order), a struct or pointer-to-struct (introspecting to a
`Table`), or a value of any other kind. -/
inductive UpdateArg where
  | mapArg : List (String × Val) → UpdateArg
  | structArg : Table → UpdateArg
  | otherArg : UpdateArg

/-- A statement handed to the database by `Update`: the raw-SQL
override (`execRaw`, modelled from the spec) or an assembled update. -/
inductive ExecAction where
  | rawStmt : String → List Val → ExecAction
  | upd : UpdQuery → ExecAction

/-- The dispatch of `Update`: raw SQL if the override is set, else by
the argument's kind — map, struct/pointer-to-struct, or nothing. -/
def DBModel.updateDispatch (db : DBModel) (model : UpdateArg) (e : Option String) :
    DBModel × Option String × Option ExecAction :=
  if db.rawSqlStr ≠ "" then
    (db, e, some (.rawStmt db.rawSqlStr db.rawArgs))
  else
    match model with
    | .mapArg m =>
      let r := db.updateByMap m e
      (r.1, r.2.1, r.2.2.map .upd)
    | .structArg t =>
      let r := db.updateByStruct t e
      (r.1, r.2.1, r.2.2.map .upd)
    | .otherArg => (db, none, none)

/-- The observable outcome of `Update`: either `log.Fatal` terminated
the process carrying the dispatched error, or the call returned with
its error value; both record what, if anything, was executed. -/
inductive UpdateReturn where
  | fatal : String → Option ExecAction → UpdateReturn
  | ret : Option String → Option ExecAction → UpdateReturn

/-- `Update` — modify data via a model of kind map, struct or
pointer-to-struct. A non-nil dispatched error goes to `log.Fatal`
(process termination); otherwise the builder state is reset and the
error variable is returned. -/
def DBModel.Update (db : DBModel) (model : UpdateArg) (e : Option String) :
    DBModel × UpdateReturn :=
  let r := db.updateDispatch model e
  match r.2.1 with
  | some m => (r.1, .fatal m r.2.2)
  | none => ((r.1).reset, .ret r.2.1 r.2.2)

/-- The table the struct-update path ultimately operates on: the
argument's own metadata for a struct argument; for a map argument, the
bound model after the map assignments (none when no model is bound or
the argument has another kind). -/
def DBModel.effectiveTable (db : DBModel) : UpdateArg → Option Table
  | .structArg t => some t
  | .mapArg m => db.model.map (applyMapToModel m)
  | .otherArg => none

/-- The query a completed single-row operation executed, if any. -/
def GetOneResult.queryOf : GetOneResult → Option Query
  | .executed q _ => some q
  | _ => none

/-- The row query a `Find` outcome assembled and handed to the
database, if any. -/
def FindResult.queryOf : FindResult → Option Query
  | .queryFailed q _ => some q
  | .countFailed q _ _ => some q
  | .ok q _ => some q
  | _ => none

/-- The companion count query a `Find` outcome ran, if any. -/
def FindResult.countQuery : FindResult → Option Query
  | .countFailed _ cq _ => some cq
  | .ok _ cq => some cq
  | _ => none

/-- The single WHERE item the condition-loop body appends for one
condition (`applyCond` in equational form). -/
def condItem (condition : Cond) : WhereItem :=
  if condition.group.length > 0 then .whereGroup condition.group
  else if condition.andor = .and then
    .whereAnd condition.field condition.opt condition.value
  else .whereOr condition.field condition.opt condition.value

/-- The WHERE items contributed by the populated columns of a table
(the in-struct filtering loop in equational form). -/
def hasValueItems (t : Table) (cols : List Column) : List WhereItem :=
  (cols.filter (fun c => c.hasValue)).map
    (fun c => .whereAnd (some c.name) .Eq (t.value c.name))

/-- The WHERE items `whereFromModel` contributes for the bound model. -/
def modelItems (db : DBModel) : List WhereItem :=
  match db.model with
  | none => []
  | some t => hasValueItems t t.columns

/- Concrete fixtures used by witnesses and counterexamples: a `users`
table with a read-only primary key `id` and an updatable `name`. -/

/-- The `id` column: populated, primary-key-style (not updatable). -/
def idCol : Column := ⟨"id", true, false⟩

/-- The `name` column: populated and updatable. -/
def nameCol : Column := ⟨"name", true, true⟩

/-- A two-column `users` table with primary key `id`. -/
def userTable : Table :=
  ⟨"users", [idCol, nameCol], [idCol], [("id", .vInt 103), ("name", .vStr "joe")], true⟩

/-- A well-shaped (struct-kind) model over `userTable`. -/
def userModel : GoModel := ⟨.kStruct, userTable⟩

/-- A well-shaped slice-target model over `userTable`. -/
def userSliceModel : GoModel := ⟨.kPtrSlice, userTable⟩

/-- A model whose reflected kind is neither struct nor pointer kinds. -/
def badModel : GoModel := ⟨.kOther, userTable⟩

/-- A table declaring a single (populated, updatable) column and no
primary key. -/
def oneColTable : Table := ⟨"t1", [nameCol], [], [("name", .vStr "x")], true⟩

/-- A well-shaped model over the single-column table. -/
def oneColModel : GoModel := ⟨.kStruct, oneColTable⟩

/-- An explicit And-joined leaf condition `age = 5`. -/
def ageCond : Cond := .mk (some "age") .Eq (.vInt 5) .and []

/-- A builder state holding one explicit where-condition. -/
def dirtyDB : DBModel := { emptyDB with whereStatement := [ageCond] }

/-- A builder state with `name` omitted and one explicit condition. -/
def omitNameDB : DBModel :=
  { emptyDB with omitsSelectStatement := ["name"], whereStatement := [ageCond] }

section Lemmas

lemma applyCond_eq (q : Query) (c : Cond) :
    applyCond q c = { q with whereItems := q.whereItems ++ [condItem c] } := by
  unfold applyCond condItem Query.whereGroup Query.whereAnd Query.whereOr
  split_ifs with h1 h2 h3
  · rfl
  · rfl
  · rfl
  · cases hao : c.andor
    · exact absurd hao h2
    · exact absurd hao h3

lemma foldl_applyCond (l : List Cond) (q : Query) :
    l.foldl applyCond q = { q with whereItems := q.whereItems ++ l.map condItem } := by
  induction l generalizing q with
  | nil => simp
  | cons c tl ih =>
    simp only [List.foldl_cons, List.map_cons, ih, applyCond_eq, List.append_assoc,
      List.cons_append, List.nil_append]

lemma whereHasValueCol_eq (t : Table) (q : Query) (c : Column) :
    whereHasValueCol t q c
      = { q with whereItems := q.whereItems ++ hasValueItems t [c] } := by
  unfold whereHasValueCol hasValueItems Query.whereAnd
  by_cases h : c.hasValue <;> simp [h]

lemma foldl_whereHasValueCol (t : Table) (cols : List Column) (q : Query) :
    cols.foldl (whereHasValueCol t) q
      = { q with whereItems := q.whereItems ++ hasValueItems t cols } := by
  induction cols generalizing q with
  | nil => simp [hasValueItems]
  | cons c tl ih =>
    rw [List.foldl_cons, ih, whereHasValueCol_eq]
    by_cases h : c.hasValue <;>
      simp [hasValueItems, h, List.filter_cons, List.append_assoc]

lemma whereFromModel_eq (db : DBModel) (q : Query) :
    db.whereFromModel q = { q with whereItems := q.whereItems ++ modelItems db } := by
  unfold DBModel.whereFromModel modelItems
  cases db.model with
  | none => simp
  | some t => exact foldl_whereHasValueCol t t.columns q

lemma foldl_join (js : List JoinItem) (q : Query) :
    js.foldl Query.join q = { q with joins := q.joins ++ js } := by
  induction js generalizing q with
  | nil => simp
  | cons j tl ih => simp [ih, Query.join, List.append_assoc]

lemma foldl_having (cs : List Cond) (q : Query) :
    cs.foldl (fun acc c => acc.having c.field c.opt c.value) q
      = { q with havingConds := q.havingConds ++ cs.map (fun c => (c.field, c.opt, c.value)) } := by
  induction cs generalizing q with
  | nil => simp
  | cons c tl ih =>
    rw [List.foldl_cons, ih]
    simp [Query.having, List.append_assoc]

lemma foldl_orderBy (is : List (String × OrderByDir)) (q : Query) :
    is.foldl (fun acc it => acc.orderByItem it.1 it.2) q
      = { q with orderBy := q.orderBy ++ is } := by
  induction is generalizing q with
  | nil => simp
  | cons i tl ih =>
    rw [List.foldl_cons, ih]
    simp [Query.orderByItem, List.append_assoc]

lemma getOneBuild_orderBy (db : DBModel) (t : Table) :
    (db.getOneBuild t).orderBy = [] := by
  unfold DBModel.getOneBuild
  dsimp only
  split_ifs <;>
    simp [whereFromModel_eq, foldl_applyCond, foldl_whereHasValueCol, Query.select,
      Query.from, Query.limit, Query.whereAnd, QueryInstance]

lemma getOneBuild_limitClause (db : DBModel) (t : Table) :
    (db.getOneBuild t).limitClause = some (1, 0) := by
  unfold DBModel.getOneBuild
  dsimp only
  split_ifs <;>
    simp [whereFromModel_eq, foldl_applyCond, foldl_whereHasValueCol, Query.select,
      Query.from, Query.limit, Query.whereAnd, QueryInstance]

lemma getOneBuild_whereItems (db : DBModel) (t : Table) :
    (db.getOneBuild t).whereItems
      = (if ¬ db.wherePrimaryCondition.value.isNil ∧ t.primaryKey.isSome then
          [WhereItem.whereAnd t.primaryKey db.wherePrimaryCondition.opt
            db.wherePrimaryCondition.value]
        else [])
        ++ db.whereStatement.map condItem
        ++ (if t.hasData then hasValueItems t t.columns else [])
        ++ modelItems db := by
  unfold DBModel.getOneBuild
  dsimp only
  split_ifs with h1 h2 h3 <;>
    simp [whereFromModel_eq, foldl_applyCond, foldl_whereHasValueCol, Query.select,
      Query.from, Query.limit, Query.whereAnd, QueryInstance]

lemma findBuild_whereItems (db : DBModel) (t : Table) :
    (db.findBuild t).whereItems
      = (if ¬ db.wherePrimaryCondition.value.isNil ∧ t.primaryKey.isSome then
          [WhereItem.whereCond db.wherePrimaryCondition]
        else [])
        ++ db.whereStatement.map condItem
        ++ modelItems db := by
  unfold DBModel.findBuild
  dsimp only
  rw [foldl_orderBy, foldl_having, foldl_join, foldl_applyCond, whereFromModel_eq]
  split_ifs <;>
    simp [Query.select, Query.from, Query.limit, Query.fetch, Query.whereCondition,
      Query.groupByItems, QueryInstance]

lemma countQueryOf_foldl_orderBy (is : List (String × OrderByDir)) (q : Query) :
    countQueryOf (is.foldl (fun acc it => acc.orderByItem it.1 it.2) q)
      = countQueryOf q := by
  rw [foldl_orderBy]
  rfl

lemma countQueryOf_fetch_ite (c : Prop) [Decidable c] (q : Query) (a b : Int) :
    countQueryOf (if c then q.fetch a b else q) = countQueryOf q := by
  split_ifs <;> rfl

lemma countQueryOf_limit_ite (c : Prop) [Decidable c] (q : Query) (a b : Int) :
    countQueryOf (if c then q.limit a b else q) = countQueryOf q := by
  split_ifs <;> rfl

lemma countQueryOf_findBuild_congr (db1 db2 : DBModel) (t : Table)
    (hs : db1.selectStatement = db2.selectStatement)
    (hj : db1.joinStatement = db2.joinStatement)
    (hwp : db1.wherePrimaryCondition = db2.wherePrimaryCondition)
    (hw : db1.whereStatement = db2.whereStatement)
    (hm : db1.model = db2.model)
    (hg : db1.groupByStatement = db2.groupByStatement)
    (hh : db1.havingStatement = db2.havingStatement) :
    countQueryOf (db1.findBuild t) = countQueryOf (db2.findBuild t) := by
  have hmi : modelItems db1 = modelItems db2 := by
    unfold modelItems
    rw [hm]
  unfold DBModel.findBuild
  dsimp only
  rw [countQueryOf_foldl_orderBy, countQueryOf_foldl_orderBy,
    countQueryOf_fetch_ite, countQueryOf_fetch_ite,
    countQueryOf_limit_ite, countQueryOf_limit_ite,
    whereFromModel_eq, whereFromModel_eq, hmi, hs, hj, hwp, hw, hg, hh]

lemma structPrimaryCond_model_irrel (db : DBModel) (x : Option Table) (T : Table) :
    structPrimaryCond { db with model := x } T = structPrimaryCond db T := rfl

lemma updateByStruct_missing_where (db : DBModel) (T : Table) (e : Option String)
    (hw : db.whereStatement = [])
    (hpk : (structPrimaryCond db T).value.isNil = true ∨ T.primaryKey = none) :
    db.updateByStruct T e
      = ({ db with wherePrimaryCondition := structPrimaryCond db T },
         some "missing WHERE condition for updating operator", none) := by
  unfold DBModel.updateByStruct structPrimaryCond
  dsimp only
  rw [hw]
  rcases hpk with hl | hr
  · unfold structPrimaryCond at hl
    simp [hl]
  · simp [hr]

end Lemmas

/-- C1: on an `Update` invocation through the struct or map path with
no raw-SQL override, if the primary-key fast-path condition (as it
stands at the safety check, after the column loop) holds no non-nil
value — or no primary key is declared — and no explicit
where-condition was configured, the operation fails with the
"missing WHERE condition" error and executes no update statement. -/
theorem C1_update_requires_condition (db : DBModel) (arg : UpdateArg)
    (e : Option String) (T : Table)
    (hraw : db.rawSqlStr = "") (hw : db.whereStatement = [])
    (heff : db.effectiveTable arg = some T)
    (hpk : (structPrimaryCond db T).value.isNil = true ∨ T.primaryKey = none) :
    (db.Update arg e).2
      = .fatal "missing WHERE condition for updating operator" none := by
  cases arg with
  | otherArg => simp [DBModel.effectiveTable] at heff
  | structArg t =>
    simp only [DBModel.effectiveTable, Option.some.injEq] at heff
    subst heff
    unfold DBModel.Update DBModel.updateDispatch
    dsimp only
    rw [if_neg (by simp [hraw])]
    rw [updateByStruct_missing_where _ _ _ hw hpk]
    rfl
  | mapArg m =>
    simp only [DBModel.effectiveTable, Option.map_eq_some'] at heff
    obtain ⟨t0, hm, ht⟩ := heff
    unfold DBModel.Update DBModel.updateDispatch DBModel.updateByMap
    dsimp only
    rw [if_neg (by simp [hraw]), hm]
    dsimp only
    rw [ht]
    rw [updateByStruct_missing_where { db with model := some T } T e hw
      (by rwa [structPrimaryCond_model_irrel])]
    rfl

/-- C1 witness: a struct update on a table with no primary key, an
empty omit list and no configured conditions fails fatally with the
missing-WHERE error and executes nothing. -/
theorem C1_witness :
    (emptyDB.Update (.structArg oneColTable) none).2
      = .fatal "missing WHERE condition for updating operator" none :=
  C1_update_requires_condition emptyDB (.structArg oneColTable) none oneColTable
    rfl rfl rfl (Or.inr rfl)

/-- C9: whenever the dispatched update path (raw-SQL, map or struct)
produces a non-nil error, `Update` hands it to the fatal logger and
never returns it; every path of `Update` that actually returns carries
a nil error, and an argument that is neither a map nor a struct or
pointer-to-struct executes nothing and returns nil. -/
theorem C9_update_fatal_or_nil :
    (∀ (db : DBModel) (arg : UpdateArg) (e : Option String) (m : String),
      (db.updateDispatch arg e).2.1 = some m →
      (db.Update arg e).2 = .fatal m (db.updateDispatch arg e).2.2)
    ∧ (∀ (db : DBModel) (arg : UpdateArg) (e : Option String)
        (err : Option String) (ex : Option ExecAction),
      (db.Update arg e).2 = .ret err ex → err = none)
    ∧ (∀ (db : DBModel) (e : Option String),
      db.rawSqlStr = "" → db.Update .otherArg e = (emptyDB, .ret none none)) := by
  refine ⟨?_, ?_, ?_⟩
  · intro db arg e m h
    unfold DBModel.Update
    dsimp only
    rw [h]
  · intro db arg e err ex h
    unfold DBModel.Update at h
    dsimp only at h
    rcases hd : (db.updateDispatch arg e).2.1 with _ | m
    · rw [hd] at h
      simp only [UpdateReturn.ret.injEq] at h
      exact h.1.symm
    · rw [hd] at h
      simp at h
  · intro db e hr
    simp [DBModel.Update, DBModel.updateDispatch, hr, DBModel.reset]

/-- C9 witness: on an empty builder with an argument of a foreign kind,
`Update` executes nothing and returns a nil error. -/
theorem C9_witness :
    emptyDB.Update .otherArg none = (emptyDB, .ret none none) :=
  C9_update_fatal_or_nil.2.2 emptyDB none rfl

/-- C2 counterexample: a `GetOne` call whose target has an invalid
shape returns the shape error without resetting the builder: the
configured where-condition survives into the next use. -/
theorem C2_cex :
    (dirtyDB.GetOne badModel .GetFirst 0 0 none).2
        = .shapeError "invalid data :: model not Struct type"
    ∧ (dirtyDB.GetOne badModel .GetFirst 0 0 none).1.whereStatement = [ageCond]
    ∧ (dirtyDB.GetOne badModel .GetFirst 0 0 none).1.whereStatement ≠ [] := by
  refine ⟨rfl, rfl, ?_⟩
  intro hcon
  exact List.cons_ne_nil _ _
    ((rfl : (dirtyDB.GetOne badModel .GetFirst 0 0 none).1.whereStatement = [ageCond]) ▸ hcon)

/-- C2 amended: the builder state is reset before return on the paths
that complete an execution — `GetOne`'s raw path and every path that
hands an assembled query to the database (success or driver error),
`Find`'s raw path and full success, and every `Update` path that
returns — while the shape-error path of `GetOne` and the shape-error,
invalid-params and execution-error paths of `Find` return without
resetting. -/
theorem C2_reset_on_completion :
    (∀ (db : DBModel) (m : GoModel) (gt : GetOne) (r1 r2 : Nat) (e : Option String),
      ((∃ q err, (db.GetOne m gt r1 r2 e).2 = .executed q err)
        ∨ (∃ s a err, (db.GetOne m gt r1 r2 e).2 = .rawExec s a err)) →
      (db.GetOne m gt r1 r2 e).1 = emptyDB)
    ∧ (∀ (db : DBModel) (m : GoModel) (ps : List Val) (e1 : Option String)
        (f : Query → Int) (e2 : Option String),
      ((∃ q cq, (db.Find m ps e1 f e2).2.2 = .ok q cq)
        ∨ (∃ s a err, (db.Find m ps e1 f e2).2.2 = .rawExec s a err)) →
      (db.Find m ps e1 f e2).1 = emptyDB)
    ∧ (∀ (db : DBModel) (arg : UpdateArg) (e : Option String) (err : Option String)
        (ex : Option ExecAction),
      (db.Update arg e).2 = .ret err ex → (db.Update arg e).1 = emptyDB) := by
  refine ⟨?_, ?_, ?_⟩
  · intro db m gt r1 r2 e
    unfold DBModel.GetOne
    dsimp only
    repeat' split
    all_goals simp [DBModel.reset]
  · intro db m ps e1 f e2
    unfold DBModel.Find
    dsimp only
    repeat' split
    all_goals try simp [DBModel.reset]
    all_goals (split_ifs at * <;> (rename_i heq; cases heq <;> simp))
  · intro db arg e err ex h
    unfold DBModel.Update at h ⊢
    dsimp only at h ⊢
    rcases hd : (db.updateDispatch arg e).2.1 with _ | mm
    · rfl
    · rw [hd] at h
      simp at h

/-- C2 amended witness: a successful `First` on a dirty builder resets
it to the empty state. -/
theorem C2_reset_witness :
    (dirtyDB.GetOne userModel .GetFirst 0 0 none).1 = emptyDB :=
  C2_reset_on_completion.1 dirtyDB userModel .GetFirst 0 0 none (Or.inl ⟨_, _, rfl⟩)

/-- C3 (code bug shown on the embedded code): with `name` omitted and
`id` read-only, `updateByStruct` still emits SET pairs for both — the
SET loop only checks `HasValue` and ignores both restrictions (the
filtered `columns`/`values` pairs computed earlier are never used) —
and the statement executes (nil error). -/
theorem C3_set_ignores_omit_and_readonly :
    ((omitNameDB.updateByStruct userTable none).2.2.map UpdQuery.sets)
        = some [("id", .vInt 103), ("name", .vStr "joe")]
    ∧ (omitNameDB.updateByStruct userTable none).2.1 = none := by
  exact ⟨rfl, rfl⟩

/-- C5: with a declared primary key `P` (of non-empty name), `First`
assembles `ORDER BY P ASC` with `LIMIT 1 OFFSET 0` and `Last` the same
query with `ORDER BY P DESC`; with no declared primary key, both order
by the first declared column instead. -/
theorem C5_first_last_order :
    (∀ (db : DBModel) (m : GoModel) (r1 r2 : Nat) (e : Option String)
        (pcol : Column) (rest : List Column),
      db.rawSqlStr = "" → m.kind.isStructLike = true →
      m.table.primaries = pcol :: rest → pcol.name ≠ "" →
      ((db.GetOne m .GetFirst r1 r2 e).2.queryOf.map
          (fun q => (q.orderBy, q.limitClause)))
        = some ([(pcol.name, .Asc)], some (1, 0))
      ∧ ((db.GetOne m .GetLast r1 r2 e).2.queryOf.map
          (fun q => (q.orderBy, q.limitClause)))
        = some ([(pcol.name, .Desc)], some (1, 0)))
    ∧ (∀ (db : DBModel) (m : GoModel) (r1 r2 : Nat) (e : Option String)
        (c : Column) (rest : List Column),
      db.rawSqlStr = "" → m.kind.isStructLike = true →
      m.table.primaries = [] → m.table.columns = c :: rest → c.name ≠ "" →
      ((db.GetOne m .GetFirst r1 r2 e).2.queryOf.map
          (fun q => (q.orderBy, q.limitClause)))
        = some ([(c.name, .Asc)], some (1, 0))
      ∧ ((db.GetOne m .GetLast r1 r2 e).2.queryOf.map
          (fun q => (q.orderBy, q.limitClause)))
        = some ([(c.name, .Desc)], some (1, 0))) := by
  refine ⟨fun db m r1 r2 e pcol rest hraw hkind hprim hname => ⟨?_, ?_⟩,
          fun db m r1 r2 e c rest hraw hkind hprim hcols hname => ⟨?_, ?_⟩⟩
  all_goals unfold DBModel.GetOne
  all_goals rw [if_neg (by simp [hraw]), if_neg (by simp [hkind])]
  all_goals simp only [Table.primaryKey, hprim]
  all_goals try simp only [hcols]
  all_goals simp [hname, GetOneResult.queryOf, Query.orderByItem, getOneBuild_orderBy,
    getOneBuild_limitClause]

/-- C5 witness: on `userTable` (primary key `id`), `First` yields
`ORDER BY id ASC LIMIT 1 OFFSET 0` and `Last` the descending twin. -/
theorem C5_witness :
    ((emptyDB.GetOne userModel .GetFirst 0 0 none).2.queryOf.map
        (fun q => (q.orderBy, q.limitClause)))
      = some ([("id", .Asc)], some (1, 0))
    ∧ ((emptyDB.GetOne userModel .GetLast 0 0 none).2.queryOf.map
        (fun q => (q.orderBy, q.limitClause)))
      = some ([("id", .Desc)], some (1, 0)) :=
  C5_first_last_order.1 emptyDB userModel 0 0 none idCol [] rfl rfl rfl
    (by decide)

/-- C4 counterexample: on a well-shaped record declaring exactly one
column, `Take` does not produce a valid single-row query — the random
draw over `len(columns)-1 = 0` panics. -/
theorem C4_cex :
    (emptyDB.Take oneColModel 0 0 none).2
      = .panicked "crypto/rand: argument to Int is <= 0" := rfl

/-- C4 amended: `Take` picks a random column index ranging over
`[0, numColumns−1)` — all but the last declared column — and a random
direction; for a well-shaped record with at least two declared columns
it always produces a valid single-row query (a column, a direction,
limit 1 offset 0) and never a shape ("invalid model") error. -/
theorem C4_take_random_column (db : DBModel) (m : GoModel) (r1 r2 : Nat)
    (e : Option String)
    (hraw : db.rawSqlStr = "") (hkind : m.kind.isStructLike = true)
    (hlen : 2 ≤ m.table.columns.length) :
    ((db.Take m r1 r2 e).2.queryOf.map (fun q => (q.orderBy, q.limitClause)))
      = some ([((m.table.columns.getD (takeIndex m.table.columns.length r1)
            ⟨"", false, false⟩).name,
          if (r2 % 10) % 2 = 1 then OrderByDir.Asc else .Desc)], some (1, 0))
    ∧ (∀ msg, (db.Take m r1 r2 e).2 ≠ .shapeError msg) := by
  unfold DBModel.Take DBModel.GetOne
  rw [if_neg (by simp [hraw]), if_neg (by simp [hkind])]
  have hne : ¬ m.table.columns.length ≤ 1 := by omega
  rcases hpk : m.table.primaryKey with _ | p
  · rcases hc : m.table.columns with _ | ⟨c, tl⟩
    · rw [hc] at hlen; simp at hlen
    · simp only [hpk, hc]
      simp [← hc, hne, GetOneResult.queryOf, Query.orderByItem, getOneBuild_orderBy,
        getOneBuild_limitClause]
  · simp only [hpk]
    simp [hne, GetOneResult.queryOf, Query.orderByItem, getOneBuild_orderBy,
      getOneBuild_limitClause]

/-- C4 amended witness: on the two-column `userTable`, `Take` with
draws `(5, 3)` orders ascending by the first column and limits to one
row, and raises no shape error. -/
theorem C4_take_witness :
    ((emptyDB.Take userModel 5 3 none).2.queryOf.map
        (fun q => (q.orderBy, q.limitClause)))
      = some ([("id", .Asc)], some (1, 0))
    ∧ (∀ msg, (emptyDB.Take userModel 5 3 none).2 ≠ .shapeError msg) :=
  C4_take_random_column emptyDB userModel 5 3 none rfl rfl (by decide)

/-- C10: the `TakeOne` draw is uniform over `[0, numColumns−1)`, so the
chosen order-by column index is always below `numColumns − 1` — the
last declared column is never chosen — and on a record declaring
exactly one column the draw's bound is zero and the code panics
instead of returning an error. -/
theorem C10_take_index_range (db : DBModel) (m : GoModel) (r1 r2 : Nat)
    (e : Option String)
    (hraw : db.rawSqlStr = "") (hkind : m.kind.isStructLike = true) :
    (2 ≤ m.table.columns.length →
      takeIndex m.table.columns.length r1 < m.table.columns.length - 1
      ∧ ((db.GetOne m .TakeOne r1 r2 e).2.queryOf.map
            (fun q => q.orderBy.map Prod.fst))
          = some [(m.table.columns.getD (takeIndex m.table.columns.length r1)
              ⟨"", false, false⟩).name])
    ∧ (m.table.columns.length = 1 →
      (db.GetOne m .TakeOne r1 r2 e).2
        = .panicked "crypto/rand: argument to Int is <= 0") := by
  constructor
  · intro hlen
    refine ⟨Nat.mod_lt _ (by omega), ?_⟩
    unfold DBModel.GetOne
    rw [if_neg (by simp [hraw]), if_neg (by simp [hkind])]
    have hne : ¬ m.table.columns.length ≤ 1 := by omega
    rcases hpk : m.table.primaryKey with _ | p
    · rcases hc : m.table.columns with _ | ⟨c, tl⟩
      · rw [hc] at hlen; simp at hlen
      · simp only [hpk, hc]
        simp [← hc, hne, GetOneResult.queryOf, Query.orderByItem, getOneBuild_orderBy]
    · simp only [hpk]
      simp [hne, GetOneResult.queryOf, Query.orderByItem, getOneBuild_orderBy]
  · intro hlen
    unfold DBModel.GetOne
    rw [if_neg (by simp [hraw]), if_neg (by simp [hkind])]
    rcases hpk : m.table.primaryKey with _ | p
    · rcases hc : m.table.columns with _ | ⟨c, tl⟩
      · rw [hc] at hlen; simp at hlen
      · simp only [hpk, hc]
        have : tl = [] := by
          rw [hc] at hlen; simpa using hlen
        simp [this, hc, hlen]
    · simp only [hpk]
      simp [hlen]

/-- C8: with a primary-key value supplied as `First`'s positional
argument on a type with a declared primary key, the assembled WHERE
items are: the injected primary-key equality first, then the
configured where-conditions in order, then (for a record carrying
data) one equality per populated column, then the bound-model
filters. -/
theorem C8_condition_order (db : DBModel) (m : GoModel) (v : Val)
    (args : List Val) (r1 r2 : Nat) (e : Option String)
    (pcol : Column) (rest : List Column)
    (hraw : db.rawSqlStr = "") (hkind : m.kind.isStructLike = true)
    (hprim : m.table.primaries = pcol :: rest) (hv : v.isNil = false)
    (hdata : m.table.hasData = true) :
    ((db.First m (v :: args) r1 r2 e).2.queryOf.map Query.whereItems)
      = some (.whereAnd (some pcol.name) .Eq v
          :: (db.whereStatement.map condItem
              ++ hasValueItems m.table m.table.columns
              ++ modelItems db)) := by
  unfold DBModel.First DBModel.GetOne
  rw [if_pos (show ((v : Val) :: args).length > 0 by simp)]
  dsimp only
  rw [if_neg (by simp [hraw]), if_neg (by simp [hkind])]
  simp only [Table.primaryKey, hprim]
  simp [GetOneResult.queryOf, Query.orderByItem, getOneBuild_whereItems,
    Table.primaryKey, hprim, hv, hdata, Cond.value, Cond.opt,
    List.getD_cons_zero, modelItems]

/-- C8 witness: `First(&user, 103)` on `userTable` assembles the
primary-key equality ahead of the per-populated-column equalities. -/
theorem C8_witness :
    ((emptyDB.First userModel [.vInt 103] 0 0 none).2.queryOf.map Query.whereItems)
      = some (.whereAnd (some "id") .Eq (.vInt 103)
          :: (emptyDB.whereStatement.map condItem
              ++ hasValueItems userTable userTable.columns
              ++ modelItems emptyDB)) :=
  C8_condition_order emptyDB userModel (.vInt 103) [] 0 0 none idCol [] rfl rfl
    rfl rfl rfl

/-- C7: on a slice target whose element type declares a primary key
`P`, `Find` given a sequence id-list argument assembles the fast-path
condition `P IN (ids)` ahead of the other conditions; given a
non-sequence argument it fails with the invalid-params error before
assembling or executing any query, leaving the state untouched and a
zero total. -/
theorem C7_find_idlist (db : DBModel) (m : GoModel) (p : List Val)
    (e1 : Option String) (f : Query → Int) (e2 : Option String)
    (pcol : Column) (rest : List Column)
    (hraw : db.rawSqlStr = "") (hkind : m.kind = .kPtrSlice)
    (hprim : m.table.primaries = pcol :: rest) :
    (∀ ids, ((db.Find m (Val.vList ids :: p) e1 f e2).2.2.queryOf.map Query.whereItems)
        = some (.whereCond (Cond.mk (some pcol.name) .In (.vList ids) .and [])
            :: (db.whereStatement.map condItem ++ modelItems db)))
    ∧ (∀ v : Val, v.isSliceKind = false →
        (db.Find m (v :: p) e1 f e2).2.2
          = .paramsError "invalid data :: params not Slice type"
        ∧ (db.Find m (v :: p) e1 f e2).1 = db
        ∧ (db.Find m (v :: p) e1 f e2).2.1 = 0) := by
  constructor
  · intro ids
    unfold DBModel.Find
    rw [if_neg (by simp [hraw]), if_neg (by simp [hkind])]
    dsimp only
    rw [if_pos (by simp [Table.primaryKey, hprim])]
    rw [if_neg (by simp [List.getD_cons_zero, Val.isSliceKind])]
    dsimp only
    rcases e1 with _ | m1 <;> rcases e2 with _ | m2 <;>
      simp [FindResult.queryOf, findBuild_whereItems, Table.primaryKey, hprim,
        Cond.value, Val.isNil, modelItems, List.getD_cons_zero]
  · intro v hv
    unfold DBModel.Find
    rw [if_neg (by simp [hraw]), if_neg (by simp [hkind])]
    dsimp only
    rw [if_pos (by simp [Table.primaryKey, hprim])]
    rw [if_pos (by simp [List.getD_cons_zero, hv])]
    exact ⟨rfl, rfl, rfl⟩

/-- C7 witness: `Find` over `userTable` with the id list `[1, 2]`
injects `id IN ([1, 2])` first, and with the non-sequence argument
`103` fails with the invalid-params error, no execution, zero total,
and an untouched state. -/
theorem C7_witness :
    ((emptyDB.Find userSliceModel [Val.vList [.vInt 1, .vInt 2]] none
          (fun _ => 0) none).2.2.queryOf.map Query.whereItems)
      = some (.whereCond (Cond.mk (some "id") .In (.vList [.vInt 1, .vInt 2]) .and [])
          :: (emptyDB.whereStatement.map condItem ++ modelItems emptyDB))
    ∧ (emptyDB.Find userSliceModel [Val.vInt 103] none (fun _ => 0) none).2.2
        = .paramsError "invalid data :: params not Slice type" :=
  ⟨(C7_find_idlist emptyDB userSliceModel [] none (fun _ => 0) none idCol [] rfl
      rfl rfl).1 [.vInt 1, .vInt 2],
   ((C7_find_idlist emptyDB userSliceModel [] none (fun _ => 0) none idCol [] rfl
      rfl rfl).2 (.vInt 103) rfl).1⟩

/-- C6: the companion count query `Find` runs keeps the filters and
drops limit/offset/fetch/order, so for any two `Find` calls differing
only in the configured limit `L` and offset `O`, both the count query
and the reported total coincide. -/
theorem C6_total_independent_of_pagination (db : DBModel) (m : GoModel)
    (params : List Val) (f : Query → Int) (L O Lp Op : Int) :
    (({ db with limitStatement := (L, O) }).Find m params none f none).2.1
      = (({ db with limitStatement := (Lp, Op) }).Find m params none f none).2.1
    ∧ (({ db with limitStatement := (L, O) }).Find m params none f none).2.2.countQuery
      = (({ db with limitStatement := (Lp, Op) }).Find m params none f none).2.2.countQuery
    ∧ (∀ q : Query, (countQueryOf q).whereItems = q.whereItems
        ∧ (countQueryOf q).joins = q.joins ∧ (countQueryOf q).groupBy = q.groupBy
        ∧ (countQueryOf q).havingConds = q.havingConds
        ∧ (countQueryOf q).limitClause = none ∧ (countQueryOf q).fetchClause = none
        ∧ (countQueryOf q).orderBy = []) := by
  refine ⟨?_, ?_, fun q => ⟨rfl, rfl, rfl, rfl, rfl, rfl, rfl⟩⟩
  all_goals
    unfold DBModel.Find
  all_goals
    dsimp only [FindResult.countQuery]
  all_goals
    split_ifs
  all_goals
    first
    | rfl
    | exact congrArg f (countQueryOf_findBuild_congr _ _ _ rfl rfl rfl rfl rfl rfl rfl)
    | exact congrArg some (countQueryOf_findBuild_congr _ _ _ rfl rfl rfl rfl rfl rfl rfl)

/-- C10 witness: on the two-column table the draw `r1 = 7` lands on
index `7 % 1 = 0 < 1` (never the last column), and on the one-column
table `Take` panics. -/
theorem C10_witness :
    (takeIndex userTable.columns.length 7 < userTable.columns.length - 1
      ∧ ((emptyDB.GetOne userModel .TakeOne 7 0 none).2.queryOf.map
            (fun q => q.orderBy.map Prod.fst)) = some ["id"])
    ∧ (emptyDB.GetOne oneColModel .TakeOne 0 0 none).2
        = .panicked "crypto/rand: argument to Int is <= 0" :=
  ⟨(C10_take_index_range emptyDB userModel 7 0 none rfl rfl).1 (by decide),
   (C10_take_index_range emptyDB oneColModel 0 0 none rfl rfl).2 rfl⟩

end FluentModel
